import Mathlib

/-!
Verification of the ASES configuration module (`src/ases_config.py`) and the
Firestore persistence gateway (`src/firebase_manager.py`).

Python semantics captured by the embedding:
* Dataclass field defaults such as `os.getenv("FIREBASE_PROJECT_ID", "ases-trading")`
  are evaluated once, when the class body executes at module import.  We model the
  import-time snapshot of those four calls as `ModuleDefaults`, a function of the
  process environment at import time.
* `ASESConfig.load_from_env` executes `return cls()`, which only copies the captured
  defaults; it never consults the live environment.  The embedding gives it the
  call-time environment as an explicit argument that the body ignores.
* `firebase_manager.py` imports `logging`, `firebase_admin`, `json`, `traceback`, …
  but never `os`; evaluating `os.path.exists(cred_path)` inside
  `FirebaseManager._initialize_firebase` therefore raises `NameError`, and every
  statement after it in the `if not firebase_admin._apps:` block (the
  `FileNotFoundError`, `credentials.Certificate`, `firebase_admin.initialize_app`)
  is unreachable.  The embedding reflects that control flow exactly.
-/

/-- A process environment: a partial map from variable names to values. -/
def Env : Type := String → Option String

/-- Python `os.getenv(name, dflt)`. -/
def getenv (env : Env) (name dflt : String) : String :=
  (env name).getD dflt

/-- The four `os.getenv` results captured when `ases_config.py` is imported
(dataclass default expressions run at class-definition time). -/
structure ModuleDefaults where
  firebase_project_id : String
  firebase_credential_path : String
  exchange_api_key : String
  exchange_api_secret : String
deriving DecidableEq, Repr

/-- Evaluating the module body of `ases_config.py` under the import-time
environment: lines 15-16 and 28-29 of the source. -/
def moduleDefaults (importEnv : Env) : ModuleDefaults :=
  { firebase_project_id := getenv importEnv "FIREBASE_PROJECT_ID" "ases-trading"
  , firebase_credential_path := getenv importEnv "FIREBASE_CREDENTIAL_PATH" "./serviceAccountKey.json"
  , exchange_api_key := getenv importEnv "EXCHANGE_API_KEY" ""
  , exchange_api_secret := getenv importEnv "EXCHANGE_API_SECRET" "" }

/-- `FirebaseConfig` dataclass.  The source field `collection_prefix` is named
`collection_pfx` here. -/
structure FirebaseConfig where
  project_id : String
  credential_path : String
  collection_pfx : String
deriving DecidableEq, Repr

/-- `FirebaseConfig.get_collection_name`: the f-string
`f"{self.collection_prefix}{entity}"`, i.e. string concatenation. -/
def FirebaseConfig.get_collection_name (c : FirebaseConfig) (entity : String) : String :=
  c.collection_pfx ++ entity

/-- `FirebaseConfig()` constructed from the captured import-time defaults. -/
def FirebaseConfig.fromDefaults (d : ModuleDefaults) : FirebaseConfig :=
  { project_id := d.firebase_project_id
  , credential_path := d.firebase_credential_path
  , collection_pfx := "ases_" }

/-- `ExchangeConfig` dataclass. -/
structure ExchangeConfig where
  exchange_id : String
  api_key : String
  api_secret : String
  sandbox_mode : Bool
  rate_limit : Nat
  timeout : Nat
deriving DecidableEq, Repr

/-- `ExchangeConfig()` constructed from the captured import-time defaults. -/
def ExchangeConfig.fromDefaults (d : ModuleDefaults) : ExchangeConfig :=
  { exchange_id := "binance"
  , api_key := d.exchange_api_key
  , api_secret := d.exchange_api_secret
  , sandbox_mode := true
  , rate_limit := 10
  , timeout := 30 }

/-- `SystemConfig` dataclass.  Python floats carry exact decimal literals here and
no arithmetic is performed on them, so they are embedded as rationals.  The source
field `min_sharpe_ratio` is named `min_sharpe_threshold` here; the dict
`performance_thresholds` is embedded as an association list in insertion order. -/
structure SystemConfig where
  log_level : String
  max_concurrent_strategies : Nat
  evolution_cycle_hours : Nat
  min_backtest_period_days : Nat
  max_drawdown_threshold : ℚ
  min_sharpe_threshold : ℚ
  performance_thresholds : List (String × ℚ)
deriving DecidableEq, Repr

/-- `SystemConfig()` with its static defaults (none is environment-backed). -/
def SystemConfig.defaults : SystemConfig :=
  { log_level := "INFO"
  , max_concurrent_strategies := 5
  , evolution_cycle_hours := 24
  , min_backtest_period_days := 30
  , max_drawdown_threshold := 0.20
  , min_sharpe_threshold := 1.0
  , performance_thresholds :=
      [ ("min_profit_factor", 1.5)
      , ("min_win_rate", 0.45)
      , ("max_daily_loss", 0.05)
      , ("min_trades_per_day", 3) ] }

/-- `StrategyConfig` dataclass. -/
structure StrategyConfig where
  available_timeframes : List String
  max_indicators_per_strategy : Nat
  available_indicators : List String
  min_correlation_threshold : ℚ
  max_correlation_threshold : ℚ
deriving DecidableEq, Repr

/-- `StrategyConfig()` with its static defaults (none is environment-backed). -/
def StrategyConfig.defaults : StrategyConfig :=
  { available_timeframes := ["5m", "15m", "1h", "4h", "1d"]
  , max_indicators_per_strategy := 5
  , available_indicators :=
      ["sma", "ema", "rsi", "macd", "bollinger_bands", "atr", "stochastic", "obv", "vwap"]
  , min_correlation_threshold := 0.3
  , max_correlation_threshold := 0.8 }

/-- `ASESConfig` dataclass: the aggregate of the four settings records. -/
structure ASESConfig where
  firebase : FirebaseConfig
  exchange : ExchangeConfig
  system : SystemConfig
  strategy : StrategyConfig
deriving DecidableEq, Repr

/-- `ASESConfig()`: each field is produced by its `default_factory`, which builds
the sub-config from the captured import-time defaults. -/
def ASESConfig.fromDefaults (d : ModuleDefaults) : ASESConfig :=
  { firebase := FirebaseConfig.fromDefaults d
  , exchange := ExchangeConfig.fromDefaults d
  , system := SystemConfig.defaults
  , strategy := StrategyConfig.defaults }

/-- `ASESConfig.load_from_env`: the body is `return cls()`.  The call-time process
environment is passed explicitly to make the timing of environment reads statable;
the body ignores it, exactly as the source reads no environment variable here. -/
def ASESConfig.load_from_env (d : ModuleDefaults) (_callEnv : Env) : ASESConfig :=
  ASESConfig.fromDefaults d

/-- The module-level global `config = ASESConfig.load_from_env()`, created while
`ases_config.py` is being imported, hence under the import-time environment. -/
def configGlobal (importEnv : Env) : ASESConfig :=
  ASESConfig.load_from_env (moduleDefaults importEnv) importEnv

/-- The documented static defaults of `ASESConfig`, written out literally
(spec sections 3 and 6). -/
def staticDefaults : ASESConfig :=
  { firebase :=
      { project_id := "ases-trading"
      , credential_path := "./serviceAccountKey.json"
      , collection_pfx := "ases_" }
  , exchange :=
      { exchange_id := "binance"
      , api_key := ""
      , api_secret := ""
      , sandbox_mode := true
      , rate_limit := 10
      , timeout := 30 }
  , system := SystemConfig.defaults
  , strategy := StrategyConfig.defaults }

/-- The environment with no variables set. -/
def emptyEnv : Env := fun _ => none

/-- The environment with exactly `FIREBASE_PROJECT_ID=foo` set. -/
def fooEnv : Env := fun n => if n = "FIREBASE_PROJECT_ID" then some "foo" else none

/-- An opaque Firestore client handle (`firestore.client()` result). -/
abbrev DB := Nat

/-- Python exceptions that can arise in `firebase_manager.py`.
`nameErrorOs` is `NameError: name os is not defined`;
`fileNotFound` is `FileNotFoundError`; `firebaseErr` is
`firebase_admin.exceptions.FirebaseError`; `valueErrDuplicate` is the
`ValueError` that `firebase_admin.initialize_app` raises when the default app
already exists; `attributeNone` is the `AttributeError` from calling a method on
`None`. -/
inductive PyError where
  | nameErrorOs : PyError
  | fileNotFound (msg : String) : PyError
  | firebaseErr (msg : String) : PyError
  | valueErrDuplicate : PyError
  | attributeNone : PyError
deriving DecidableEq, Repr

/-- Python `str(e)` for each modelled exception. -/
def errStr : PyError → String
  | .nameErrorOs => "name os is not defined"
  | .fileNotFound msg => msg
  | .firebaseErr msg => msg
  | .valueErrDuplicate => "The default Firebase app already exists."
  | .attributeNone => "NoneType object has no attribute collection"

/-- Whether an exception is the credential-missing (`FileNotFoundError`) one. -/
def isCredentialMissing : PyError → Bool
  | .fileNotFound _ => true
  | _ => false

/-- The process-level facts `_initialize_firebase` depends on:
whether `firebase_admin._apps` is non-empty, whether a file exists at the
configured credential path, and the outcome of calling `firestore.client()` —
either a handle, or a `firebase_admin.exceptions.FirebaseError` carrying the
given message (authentication failure, network error, …). -/
structure InitWorld where
  apps : Bool
  credExists : Bool
  clientOutcome : Except String DB

/-- Which statements of the guarded block actually executed. -/
structure InitTrace where
  credCheckAttempted : Bool
  initAppCalled : Bool
deriving DecidableEq, Repr

/-- The `try` body of `FirebaseManager._initialize_firebase`
(src/firebase_manager.py lines 28-44).  When `firebase_admin._apps` is empty the
code reads `config.firebase.credential_path` and then evaluates
`os.path.exists(cred_path)`; the module never imports `os`, so this raises
`NameError` no matter whether the file exists, and the `FileNotFoundError` raise,
`credentials.Certificate`, and `firebase_admin.initialize_app` below it never
run.  When `_apps` is non-empty the block is skipped and
`self.db = firestore.client()` is evaluated directly. -/
def initTryBody (w : InitWorld) : Except PyError DB × InitTrace :=
  if !w.apps then
    (Except.error PyError.nameErrorOs, ⟨true, false⟩)
  else
    (w.clientOutcome.mapError PyError.firebaseErr, ⟨false, false⟩)

/-- The log line prefix chosen by the `except` clauses of
`_initialize_firebase`: `exceptions.FirebaseError` is matched first, every other
exception falls to the generic handler.  Both handlers re-raise. -/
def initLogLabel : PyError → String
  | .firebaseErr _ => "Firebase initialization failed: "
  | _ => "Unexpected error during Firebase init: "

/-- Result of running `_initialize_firebase`: the value of `self.db` on success
or the re-raised exception, the error-log entries emitted, and the execution
trace. -/
structure InitOut where
  result : Except PyError DB
  logs : List String
  trace : InitTrace
deriving Repr

/-- `FirebaseManager._initialize_firebase` (source name `_initialize_firebase`):
the `try` body wrapped in the two `except` clauses, each of which logs
`str(e)` under its label and re-raises. -/
def initFirebase (w : InitWorld) : InitOut :=
  match initTryBody w with
  | (Except.ok d, tr) => ⟨Except.ok d, [], tr⟩
  | (Except.error e, tr) => ⟨Except.error e, [initLogLabel e ++ errStr e], tr⟩

/-- The gateway object: its only field is `db`, `None` until
`_initialize_firebase` assigns it. -/
structure FirebaseManager where
  db : Option DB
deriving DecidableEq, Repr

/-- Result of evaluating `FirebaseManager()`: the constructor outcome (the
object, or the exception propagating out of `__init__`), the final state of the
object's `db` field (set to `None` first, assigned only on success), the log
entries, and the trace. -/
structure ConstructOut where
  result : Except PyError FirebaseManager
  objDb : Option DB
  logs : List String
  trace : InitTrace
deriving Repr

/-- `FirebaseManager.__init__`: sets `self.db = None`, then runs
`self._initialize_firebase()`; an exception there propagates to the caller and
leaves `self.db` as `None`. -/
def FirebaseManager.construct (w : InitWorld) : ConstructOut :=
  match initFirebase w with
  | ⟨Except.ok d, logs, tr⟩ => ⟨Except.ok ⟨some d⟩, some d, logs, tr⟩
  | ⟨Except.error e, logs, tr⟩ => ⟨Except.error e, none, logs, tr⟩

/-- `FirebaseManager.get_collection`: computes
`config.firebase.get_collection_name(entity_name)` and calls
`self.db.collection(...)`.  A collection reference is modelled as the client
handle paired with the physical collection name; if `self.db` is `None` the
attribute access raises. -/
def FirebaseManager.get_collection (m : FirebaseManager) (cfg : ASESConfig)
    (entity_name : String) : Except PyError (DB × String) :=
  match m.db with
  | none => Except.error PyError.attributeNone
  | some d => Except.ok (d, cfg.firebase.get_collection_name entity_name)

/-- A strategy record: an opaque mapping of field name to value, embedded as an
association list (schema owned by the caller). -/
abbrev StrategyRecord := List (String × String)

/-- The external Firestore document store as the gateway observes it:
the counter behind auto-assigned document identifiers, the documents written so
far as (collection name, document id, record) triples, and an injected transient
store failure (`some msg` makes the next write raise with that detail). -/
structure Firestore where
  nextId : Nat
  docs : List (String × String × StrategyRecord)
  transientFail : Option String
deriving DecidableEq, Repr

/-- The auto-assigned identifier Firestore hands out for the next added
document; such identifiers are never empty. -/
def autoDocId (s : Firestore) : String := "doc" ++ toString s.nextId

/-- Modelled from the spec: the required-field set of `save_strategy`.
The body of `FirebaseManager.save_strategy` is missing from
`src/firebase_manager.py` (the file ends inside the function, right after the
`# Validate required fields` comment), and spec section 4.2 says the exact
required fields are unspecified and that an implementer must pick a minimal set,
e.g. a strategy identifier and a creation timestamp. -/
def requiredStrategyFields : List String := ["strategy_id", "created_at"]

/-- Whether a record carries every required field. -/
def hasRequiredFields (record : StrategyRecord) : Bool :=
  requiredStrategyFields.all (fun f => (record.map Prod.fst).contains f)

/-- Modelled from the spec: `FirebaseManager.save_strategy`.  Its body is
missing from `src/firebase_manager.py` (the file is truncated mid-function), so
it is modelled from spec sections 4.2 and 7: validate that the record has the
required fields, then write it to the `strategies` collection (physical name via
`collectionName`); return the newly assigned document identifier on success, and
on an expected failure — validation failure or a transient store error — catch
it, log one entry with the error detail, and return an absent result instead of
raising; the returned triple is (store after the call, result, log entries). -/
def FirebaseManager.save_strategy (m : FirebaseManager) (cfg : ASESConfig)
    (s : Firestore) (strategy_data : StrategyRecord) :
    Firestore × Option String × List String :=
  match m.db with
  | none =>
      (s, none, ["Error saving strategy: " ++ errStr PyError.attributeNone])
  | some _ =>
      if hasRequiredFields strategy_data then
        match s.transientFail with
        | some msg => (s, none, ["Error saving strategy: " ++ msg])
        | none =>
            ({ s with
                nextId := s.nextId + 1
              , docs := (cfg.firebase.get_collection_name "strategies",
                         autoDocId s, strategy_data) :: s.docs },
             some (autoDocId s), [])
      else
        (s, none,
         ["Strategy data missing required fields: "
            ++ String.intercalate ", " requiredStrategyFields])

/-- Modelled from the spec: the Connect step as specified — verify that a
credential artifact exists at the configured path and fail with a
credential-not-found error if absent, initialize the underlying client exactly
once per process, reuse it when it already exists.  Equivalently, the source
`_initialize_firebase` `try` body as it would behave with `import os` present.
Used to compare the source's actual behaviour with the specified intent. -/
def initFirebaseIntended (w : InitWorld) (credPath : String) : Except PyError DB :=
  if !w.apps then
    if !w.credExists then
      Except.error (PyError.fileNotFound
        ("Firebase credentials not found at " ++ credPath
          ++ ". Please download serviceAccountKey.json from Firebase Console."))
    else
      w.clientOutcome.mapError PyError.firebaseErr
  else
    w.clientOutcome.mapError PyError.firebaseErr

/-- Auto-assigned document identifiers are never the empty string. -/
theorem autoDocId_ne_empty (s : Firestore) : autoDocId s ≠ "" := by
  intro h
  have h2 := congrArg String.length h
  simp [autoDocId, String.length_append] at h2
  exact absurd h2.1 (by decide)

/-- Claim C2: for every entity name `e` (the empty string included),
`get_collection_name e` equals `prefix ++ e`, a pure total function of the
prefix and the entity with no error conditions; an empty entity name yields the
prefix alone; and `get_collection e` addresses exactly the physical collection
so named, which under the default prefix is `"ases_" ++ e`. -/
theorem get_collection_name_correct :
    (∀ (c : FirebaseConfig) (e : String), c.get_collection_name e = c.collection_pfx ++ e) ∧
    (∀ c : FirebaseConfig, c.get_collection_name "" = c.collection_pfx) ∧
    (∀ (env : Env) (e : String),
      (configGlobal env).firebase.get_collection_name e = "ases_" ++ e) ∧
    (∀ (env : Env) (e : String) (d : DB),
      (FirebaseManager.mk (some d)).get_collection (configGlobal env) e
        = Except.ok (d, "ases_" ++ e)) := by
  refine ⟨fun c e => rfl, fun c => ?_, fun env e => rfl, fun env e d => rfl⟩
  simp [FirebaseConfig.get_collection_name]

/-- Claim C3: with none of the backing environment variables set, `load()`
returns an aggregate whose fields are exactly the documented static defaults —
in particular `sandbox_mode = true`, `rate_limit = 10`,
`max_drawdown_threshold = 0.20` — and `load()` is a total function: it never
fails, whatever the call-time environment. -/
theorem load_from_env_defaults (importEnv callEnv : Env)
    (h1 : importEnv "FIREBASE_PROJECT_ID" = none)
    (h2 : importEnv "FIREBASE_CREDENTIAL_PATH" = none)
    (h3 : importEnv "EXCHANGE_API_KEY" = none)
    (h4 : importEnv "EXCHANGE_API_SECRET" = none) :
    ASESConfig.load_from_env (moduleDefaults importEnv) callEnv = staticDefaults ∧
    (ASESConfig.load_from_env (moduleDefaults importEnv) callEnv).exchange.sandbox_mode = true ∧
    (ASESConfig.load_from_env (moduleDefaults importEnv) callEnv).exchange.rate_limit = 10 ∧
    (ASESConfig.load_from_env (moduleDefaults importEnv) callEnv).system.max_drawdown_threshold
      = 0.20 := by
  have hmain : ASESConfig.load_from_env (moduleDefaults importEnv) callEnv = staticDefaults := by
    unfold ASESConfig.load_from_env ASESConfig.fromDefaults FirebaseConfig.fromDefaults
      ExchangeConfig.fromDefaults moduleDefaults getenv staticDefaults
    rw [h1, h2, h3, h4]
    rfl
  refine ⟨hmain, ?_, ?_, ?_⟩ <;> rw [hmain] <;> rfl

/-- Witness for claim C3 at the concrete empty environment. -/
theorem load_from_env_defaults_witness :
    ASESConfig.load_from_env (moduleDefaults emptyEnv) emptyEnv = staticDefaults :=
  (load_from_env_defaults emptyEnv emptyEnv rfl rfl rfl rfl).1

/-- Claim C6 fails as stated: `FIREBASE_PROJECT_ID` is read when the module is
imported, not when `load()` runs.  Here the variable holds `"foo"` in the
environment at `load()` time but was unset at import time, and the returned
aggregate keeps the default `"ases-trading"`. -/
theorem project_id_call_time_counterexample :
    fooEnv "FIREBASE_PROJECT_ID" = some "foo" ∧
    (ASESConfig.load_from_env (moduleDefaults emptyEnv) fooEnv).firebase.project_id
      = "ases-trading" ∧
    "ases-trading" ≠ "foo" :=
  ⟨rfl, rfl, by decide⟩

/-- Claim C6 (amended): if `FIREBASE_PROJECT_ID` is `"foo"` in the environment
at module-import time (the other backed variables unset), `load()` yields
`project_id = "foo"` and every other field keeps its static default; each
environment-backed field is overridden by its correspondingly named variable as
read at module-import time, whatever the call-time environment. -/
theorem project_id_import_override (importEnv callEnv : Env)
    (h1 : importEnv "FIREBASE_PROJECT_ID" = some "foo")
    (h2 : importEnv "FIREBASE_CREDENTIAL_PATH" = none)
    (h3 : importEnv "EXCHANGE_API_KEY" = none)
    (h4 : importEnv "EXCHANGE_API_SECRET" = none) :
    (ASESConfig.load_from_env (moduleDefaults importEnv) callEnv).firebase.project_id = "foo" ∧
    ASESConfig.load_from_env (moduleDefaults importEnv) callEnv
      = { staticDefaults with
          firebase := { staticDefaults.firebase with project_id := "foo" } } := by
  have hmain : ASESConfig.load_from_env (moduleDefaults importEnv) callEnv
      = { staticDefaults with
          firebase := { staticDefaults.firebase with project_id := "foo" } } := by
    unfold ASESConfig.load_from_env ASESConfig.fromDefaults FirebaseConfig.fromDefaults
      ExchangeConfig.fromDefaults moduleDefaults getenv staticDefaults
    rw [h1, h2, h3, h4]
    rfl
  exact ⟨by rw [hmain], hmain⟩

/-- Witness for the amended claim C6 at the concrete one-variable environment. -/
theorem project_id_import_override_witness :
    (ASESConfig.load_from_env (moduleDefaults fooEnv) emptyEnv).firebase.project_id = "foo" :=
  (project_id_import_override fooEnv emptyEnv rfl rfl rfl rfl).1

/-- Claim C9: the environment variables backing configuration defaults are read
at module import, not when `load_from_env()` is called — the captured defaults
are exactly the import-time `getenv` results, and two `load_from_env()` calls
under arbitrary (possibly different) call-time environments return
field-for-field equal aggregates. -/
theorem env_read_at_import_only :
    (∀ (m : ModuleDefaults) (e1 e2 : Env),
      ASESConfig.load_from_env m e1 = ASESConfig.load_from_env m e2) ∧
    (∀ (importEnv callEnv : Env),
      (ASESConfig.load_from_env (moduleDefaults importEnv) callEnv).firebase.project_id
        = getenv importEnv "FIREBASE_PROJECT_ID" "ases-trading" ∧
      (ASESConfig.load_from_env (moduleDefaults importEnv) callEnv).firebase.credential_path
        = getenv importEnv "FIREBASE_CREDENTIAL_PATH" "./serviceAccountKey.json" ∧
      (ASESConfig.load_from_env (moduleDefaults importEnv) callEnv).exchange.api_key
        = getenv importEnv "EXCHANGE_API_KEY" "" ∧
      (ASESConfig.load_from_env (moduleDefaults importEnv) callEnv).exchange.api_secret
        = getenv importEnv "EXCHANGE_API_SECRET" "") :=
  ⟨fun _ _ _ => rfl, fun _ _ => ⟨rfl, rfl, rfl, rfl⟩⟩

/-- Claim C8: whenever `firebase_admin._apps` is empty, construction enters the
credential-check branch and raises `NameError` (the name `os` is never imported
in `firebase_manager.py`), regardless of whether the credential file exists and
of the client outcome — so a first-in-process construction always fails, with an
error other than the credential-missing one. -/
theorem fresh_construction_raises_name_error (w : InitWorld) (h : w.apps = false) :
    (FirebaseManager.construct w).result = Except.error PyError.nameErrorOs ∧
    (initFirebase w).trace.credCheckAttempted = true ∧
    isCredentialMissing PyError.nameErrorOs = false ∧
    (∀ msg, PyError.nameErrorOs ≠ PyError.fileNotFound msg) := by
  obtain ⟨a, c, r⟩ := w
  subst h
  exact ⟨rfl, rfl, rfl, fun msg h2 => PyError.noConfusion h2⟩

/-- Witness for claim C8, at a world where the credential file does exist and
the client would be available, yet construction still raises `NameError`. -/
theorem fresh_construction_raises_name_error_witness :
    (FirebaseManager.construct ⟨false, true, Except.ok 0⟩).result
      = Except.error PyError.nameErrorOs :=
  (fresh_construction_raises_name_error ⟨false, true, Except.ok 0⟩ rfl).1

/-- Claim C1 states the specified intent, and the code diverges from it: at the
failing input — a fresh process (no app initialized) with the credential file
absent — construction fails with `NameError`, not with the credential-missing
`FileNotFoundError` (the `raise FileNotFoundError` line is unreachable because
evaluating `os.path.exists` raises first); the `db` handle does remain unset.
The spec-intended Connect step (`initFirebaseIntended`) raises exactly the
credential-missing error at the same input. -/
theorem credential_missing_code_divergence :
    (FirebaseManager.construct ⟨false, false, Except.ok 0⟩).result
      = Except.error PyError.nameErrorOs ∧
    isCredentialMissing PyError.nameErrorOs = false ∧
    (FirebaseManager.construct ⟨false, false, Except.ok 0⟩).objDb = none ∧
    initFirebaseIntended ⟨false, false, Except.ok 0⟩ "./serviceAccountKey.json"
      = Except.error (PyError.fileNotFound
          ("Firebase credentials not found at ./serviceAccountKey.json."
            ++ " Please download serviceAccountKey.json from Firebase Console.")) ∧
    isCredentialMissing
      (PyError.fileNotFound
        ("Firebase credentials not found at ./serviceAccountKey.json."
          ++ " Please download serviceAccountKey.json from Firebase Console.")) = true :=
  ⟨rfl, rfl, rfl, rfl, rfl⟩

/-- Claim C10: the credential-existence check runs exactly when no app exists
yet; with an app already present the check is skipped entirely — the outcome
does not depend on whether the credential file exists — and construction
succeeds whenever the client call succeeds, even with the credential file
absent. -/
theorem cred_check_skipped_when_app_exists (w : InitWorld) :
    ((initFirebase w).trace.credCheckAttempted = !w.apps) ∧
    (w.apps = true → ∀ b : Bool,
      initFirebase w = initFirebase ⟨true, b, w.clientOutcome⟩) ∧
    (∀ d : DB, w.apps = true → w.clientOutcome = Except.ok d →
      (FirebaseManager.construct w).result = Except.ok ⟨some d⟩) := by
  obtain ⟨a, c, r⟩ := w
  refine ⟨?_, ?_, ?_⟩
  · cases a <;> cases r <;> rfl
  · intro ha b
    subst ha
    rfl
  · intro d ha hr
    subst ha
    subst hr
    rfl

/-- Witness for claim C10: with an app already registered and the credential
file absent, construction succeeds and reuses the client. -/
theorem cred_check_skipped_when_app_exists_witness :
    (FirebaseManager.construct ⟨true, false, Except.ok 5⟩).result = Except.ok ⟨some 5⟩ :=
  (cred_check_skipped_when_app_exists ⟨true, false, Except.ok 5⟩).2.2 5 rfl rfl

/-- Claim C4: the underlying client is initialized at most once per process — a
successful construction implies the shared app registry was already populated;
the code never mutates that registry, so a later construction in the same
process (same registry state) finds the client present, never calls
`initialize_app` again, cannot fail with the duplicate-app error, and succeeds
by reusing the client whenever the client call succeeds. -/
theorem client_initialized_at_most_once (w1 w2 : InitWorld)
    (hproc : w2.apps = w1.apps)
    (hok : ∃ m, (FirebaseManager.construct w1).result = Except.ok m) :
    w1.apps = true ∧
    w2.apps = true ∧
    (initFirebase w2).trace.initAppCalled = false ∧
    (FirebaseManager.construct w2).result ≠ Except.error PyError.valueErrDuplicate ∧
    (∀ d : DB, w2.clientOutcome = Except.ok d →
      (FirebaseManager.construct w2).result = Except.ok ⟨some d⟩) := by
  obtain ⟨m, hm⟩ := hok
  obtain ⟨a1, c1, r1⟩ := w1
  obtain ⟨a2, c2, r2⟩ := w2
  have ha1 : a1 = true := by
    cases a1
    · exact absurd hm (by simp [FirebaseManager.construct, initFirebase, initTryBody])
    · rfl
  subst ha1
  simp only at hproc
  subst hproc
  refine ⟨rfl, rfl, ?_, ?_, ?_⟩
  · cases r2 <;> rfl
  · cases r2 with
    | ok d => simp [FirebaseManager.construct, initFirebase, initTryBody, Except.mapError]
    | error msg => simp [FirebaseManager.construct, initFirebase, initTryBody, Except.mapError]
  · intro d hr
    subst hr
    rfl

/-- Witness for claim C4: after a successful construction (app registry
populated, client handle 3), a second construction reuses the registry and
succeeds with its own client handle. -/
theorem client_initialized_at_most_once_witness :
    (FirebaseManager.construct ⟨true, false, Except.ok 7⟩).result = Except.ok ⟨some 7⟩ :=
  (client_initialized_at_most_once ⟨true, true, Except.ok 3⟩ ⟨true, false, Except.ok 7⟩
    rfl ⟨⟨some 3⟩, rfl⟩).2.2.2.2 7 rfl

/-- Claim C7: gateway construction is all-or-nothing — every initialization
error (the client's authentication/network `FirebaseError` included) produces
exactly one log entry carrying `str(e)` under the matching handler's label and
is re-raised to the caller; the failed construction leaves `db` unset, and on
such a partially-initialized gateway `get_collection` cannot succeed (the
attribute access on `None` raises) and `save_strategy` never returns an
identifier. -/
theorem construction_all_or_nothing (w : InitWorld) (e : PyError)
    (h : (initFirebase w).result = Except.error e) :
    (FirebaseManager.construct w).result = Except.error e ∧
    (FirebaseManager.construct w).objDb = none ∧
    (initFirebase w).logs = [initLogLabel e ++ errStr e] ∧
    (∀ (cfg : ASESConfig) (ent : String),
      (FirebaseManager.mk (FirebaseManager.construct w).objDb).get_collection cfg ent
        = Except.error PyError.attributeNone) ∧
    (∀ (cfg : ASESConfig) (s : Firestore) (rec : StrategyRecord),
      ((FirebaseManager.mk (FirebaseManager.construct w).objDb).save_strategy cfg s rec).2.1
        = none) := by
  obtain ⟨a, c, r⟩ := w
  cases a with
  | false =>
    have he : e = PyError.nameErrorOs := by
      simpa [initFirebase, initTryBody] using h.symm
    subst he
    exact ⟨rfl, rfl, rfl, fun cfg ent => rfl, fun cfg s rec => rfl⟩
  | true =>
    cases r with
    | ok d => simp [initFirebase, initTryBody, Except.mapError] at h
    | error msg =>
      have he : e = PyError.firebaseErr msg := by
        simpa [initFirebase, initTryBody, Except.mapError] using h.symm
      subst he
      exact ⟨rfl, rfl, rfl, fun cfg ent => rfl, fun cfg s rec => rfl⟩

/-- Witness for claim C7 at a concrete client authentication failure. -/
theorem construction_all_or_nothing_witness :
    (FirebaseManager.construct ⟨true, true, Except.error "authentication failed"⟩).result
      = Except.error (PyError.firebaseErr "authentication failed") :=
  (construction_all_or_nothing ⟨true, true, Except.error "authentication failed"⟩
    (PyError.firebaseErr "authentication failed") rfl).1

/-- Claim C5: on a connected gateway, `save_strategy` returns the auto-assigned
document identifier — never empty — on success; on a record missing required
fields it returns an absent result with one log entry; on a transient store
failure it returns an absent result with exactly one log entry containing the
error detail.  The return type is a plain result triple, so expected failures
are reported as values rather than raised past the gateway boundary. -/
theorem save_strategy_contract (cfg : ASESConfig) (s : Firestore) (d : DB)
    (rec : StrategyRecord) :
    (hasRequiredFields rec = true → s.transientFail = none →
      ((FirebaseManager.mk (some d)).save_strategy cfg s rec).2.1 = some (autoDocId s) ∧
      autoDocId s ≠ "") ∧
    (hasRequiredFields rec = false →
      ((FirebaseManager.mk (some d)).save_strategy cfg s rec).2.1 = none ∧
      ((FirebaseManager.mk (some d)).save_strategy cfg s rec).2.2.length = 1) ∧
    (∀ msg, s.transientFail = some msg → hasRequiredFields rec = true →
      ((FirebaseManager.mk (some d)).save_strategy cfg s rec).2.1 = none ∧
      ((FirebaseManager.mk (some d)).save_strategy cfg s rec).2.2
        = ["Error saving strategy: " ++ msg]) := by
  refine ⟨fun hreq htf => ?_, fun hreq => ?_, fun msg htf hreq => ?_⟩
  · constructor
    · simp [FirebaseManager.save_strategy, hreq, htf]
    · exact autoDocId_ne_empty s
  · constructor <;> simp [FirebaseManager.save_strategy, hreq]
  · constructor <;> simp [FirebaseManager.save_strategy, hreq, htf]

/-- Witness for claim C5: a well-formed record saved on a healthy store yields
the non-empty identifier assigned by the store. -/
theorem save_strategy_contract_witness :
    ((FirebaseManager.mk (some 0)).save_strategy staticDefaults ⟨0, [], none⟩
        [("strategy_id", "s1"), ("created_at", "t1")]).2.1
      = some (autoDocId ⟨0, [], none⟩) ∧ autoDocId ⟨0, [], none⟩ ≠ "" :=
  (save_strategy_contract staticDefaults ⟨0, [], none⟩ 0
    [("strategy_id", "s1"), ("created_at", "t1")]).1 rfl rfl
